import Mathlib

/-!
Verification development for the SPH liquid-particle simulation in
`visualization/liquid_mode.py` (classes `FluidParticle`, `SpatialHashGrid`,
`RippleWave`, `LiquidMode`).

Modelling conventions:
* Python floats are modelled as exact rationals (`ℚ`); the kernel constants
  that involve π (`POLY6_CONST = 315/(64π)`, `SPIKY_CONST = -45/π`) and the
  trigonometric splash directions live in `ℝ`.
* Python `int(x)` applied to a float truncates toward zero; it is modelled
  by `pyTrunc`.
* Ambient randomness (`random.uniform`) is modelled by explicit parameters
  (jitter / noise streams), so every run of the model corresponds to one
  choice of the random samples drawn by the source.
* Python object identity (`is`) on particles is modelled by giving every
  particle a distinct `pid` field; distinct objects are distinct records.
-/

/-! ## Python float-to-int truncation -/

/-- Python `int()` applied to a (real-valued) quantity: truncation toward
zero, i.e. floor for nonnegative arguments and ceiling for negative ones. -/
def pyTrunc (q : ℚ) : ℤ := if 0 ≤ q then ⌊q⌋ else ⌈q⌉

/-! ## Simulation constants (class attributes of `LiquidMode`) -/

/-- `KERNEL_RADIUS = 15.0` -/
def KERNEL_RADIUS : ℚ := 15

/-- `GAS_STIFFNESS = 2.0` -/
def GAS_STIFFNESS : ℚ := 2

/-- `VISCOSITY = 0.018` -/
def VISCOSITY : ℚ := 18/1000

/-- `REST_DENSITY = 1000.0` -/
def REST_DENSITY : ℚ := 1000

/-- `GRAVITY = 300.0` -/
def GRAVITY : ℚ := 300

/-- `DAMPING = 0.98` -/
def DAMPING : ℚ := 98/100

/-- `self.keyboard_height = 50` -/
def KEYBOARD_HEIGHT : ℚ := 50

/-- The fixed time step of `_update_physics`: `dt = 1.0 / 60.0`. -/
def PHYSICS_DT : ℚ := 1/60

/-! ## `FluidParticle` -/

/-- State of one `FluidParticle`.  The rendering-only `trail`,
`trail_max`, `num_neighbors`, `surface_tension_factor`, `shimmer_phase` and
`shimmer_amplitude` fields, and the transient `neighbors` list, are omitted:
no claim refers to them and they never feed back into the simulation state.
`pid` models Python object identity. -/
structure FluidParticle where
  pid : ℕ
  x : ℚ
  y : ℚ
  vx : ℚ
  vy : ℚ
  ax : ℚ
  ay : ℚ
  mass : ℚ
  density : ℚ
  pressure : ℚ
  viscosity_force_x : ℚ
  viscosity_force_y : ℚ
  alpha : ℤ
  age : ℚ
  lifetime : ℚ
  size : ℤ
  pitch : ℤ
  velocity : ℚ
  color : ℤ × ℤ × ℤ
deriving DecidableEq

/-- `FluidParticle.__init__`: the fields a freshly constructed particle gets.
`vxInit` models the `random.uniform(-1, 1)` initial horizontal drift. -/
def mkFluidParticle (pid : ℕ) (x y : ℚ) (pitch : ℤ) (velocity : ℚ)
    (color : ℤ × ℤ × ℤ) (mass vxInit : ℚ) : FluidParticle :=
  { pid := pid
    x := x
    y := y
    vx := vxInit
    vy := 2 + velocity * 4
    ax := 0
    ay := 0
    mass := mass
    density := 0
    pressure := 0
    viscosity_force_x := 0
    viscosity_force_y := 0
    alpha := 255
    age := 0
    lifetime := 8
    size := max 3 (pyTrunc (4 + velocity * 3))
    pitch := pitch
    velocity := velocity
    color := color }

/-- Squared Euclidean distance between two particles, as computed by the
source: `(particle.x - other.x) ** 2 + (particle.y - other.y) ** 2`. -/
def distSq (p q : FluidParticle) : ℚ :=
  (p.x - q.x) ^ 2 + (p.y - q.y) ^ 2

/-! ## `SpatialHashGrid` -/

/-- The mapping held by `SpatialHashGrid.grid`: integer cell coordinates to
the list of particles inserted into that cell (a missing key is the empty
list). -/
abbrev Grid := ℤ × ℤ → List FluidParticle

/-- The cell a particle hashes to:
`(int(particle.x / cell_size), int(particle.y / cell_size))`. -/
def cellOf (cellSize : ℚ) (p : FluidParticle) : ℤ × ℤ :=
  (pyTrunc (p.x / cellSize), pyTrunc (p.y / cellSize))

/-- `SpatialHashGrid.insert`: append the particle to its cell's list. -/
def gridInsert (cellSize : ℚ) (g : Grid) (p : FluidParticle) : Grid :=
  fun k => if k = cellOf cellSize p then g k ++ [p] else g k

/-- The grid after inserting every particle of `ps` into an initially empty
grid, as `_update_physics` does each tick after `clear()`. -/
def buildGrid (cellSize : ℚ) (ps : List FluidParticle) : Grid :=
  ps.foldl (gridInsert cellSize) (fun _ => [])

/-- The cell offsets scanned by `get_neighbors`:
`range(-search_range, search_range + 1)`. -/
def searchOffsets (s : ℤ) : List ℤ :=
  (List.range (2 * s + 1).toNat).map (fun i => -s + (i : ℤ))

/-- `SpatialHashGrid.get_neighbors`: scan all cells within
`int(radius / cell_size) + 1` cells of the particle's own cell and collect
every stored particle at squared distance `< radius ** 2`, excluding the
queried particle itself (`other is not particle`). -/
def get_neighbors (cellSize radius : ℚ) (g : Grid) (p : FluidParticle) :
    List FluidParticle :=
  let c := cellOf cellSize p
  let s := pyTrunc (radius / cellSize) + 1
  (searchOffsets s).flatMap fun dx =>
    (searchOffsets s).flatMap fun dy =>
      (g (c.1 + dx, c.2 + dy)).filter fun other =>
        decide (distSq p other < radius ^ 2 ∧ other ≠ p)

/-- Brute-force neighbor predicate of the spec: a different particle at
Euclidean distance strictly less than the radius (stated on squared
distances, which is equivalent for nonnegative radius). -/
def bruteForceNeighbors (ps : List FluidParticle) (p : FluidParticle)
    (radius : ℚ) : List FluidParticle :=
  ps.filter fun q => decide (q ≠ p ∧ distSq p q < radius ^ 2)

/-! ## `_apply_boundary_conditions` and `_check_keyboard_impacts` -/

/-- Side-wall branch of `_apply_boundary_conditions`: clamp to the wall and
reflect with `vx *= -0.8` (the `if particle.x < 5 … elif …` block). -/
def boundarySideWalls (width : ℚ) (p : FluidParticle) : FluidParticle :=
  if p.x < 5 then { p with x := 5, vx := p.vx * (-8/10) }
  else if p.x > width - 5 then { p with x := width - 5, vx := p.vx * (-8/10) }
  else p

/-- Keyboard branch of `_apply_boundary_conditions`: for `y > keyboard_y`,
clamp to `keyboard_y - 2` and reflect with `vy *= -0.6`. -/
def boundaryKeyboard (height : ℚ) (p : FluidParticle) : FluidParticle :=
  if p.y > height - KEYBOARD_HEIGHT
  then { p with y := height - KEYBOARD_HEIGHT - 2, vy := p.vy * (-6/10) }
  else p

/-- Top branch of `_apply_boundary_conditions`: for `y < 5`, clamp and
reflect weakly with `vy *= -0.3`. -/
def boundaryTop (p : FluidParticle) : FluidParticle :=
  if p.y < 5 then { p with y := 5, vy := p.vy * (-3/10) } else p

/-- `_apply_boundary_conditions`: the three clamp blocks in source order —
side walls, then keyboard line, then top. -/
def applyBoundaryConditions (width height : ℚ) (p : FluidParticle) :
    FluidParticle :=
  boundaryTop (boundaryKeyboard height (boundarySideWalls width p))

/-- One impact record collected by `_check_keyboard_impacts`:
`{x, keyboard_y, |vy|, color}` (the dict built at lines 295–301). -/
structure ImpactEvent where
  x : ℚ
  y : ℚ
  velocity : ℚ
  color : ℤ × ℤ × ℤ
deriving DecidableEq

/-- The impact record built from a particle at keyboard line `keyboardY`. -/
def mkImpact (keyboardY : ℚ) (p : FluidParticle) : ImpactEvent :=
  { x := p.x, y := keyboardY, velocity := |p.vy|, color := p.color }

/-- `_check_keyboard_impacts`: iterate over (a copy of) the particle list;
every particle with `y >= keyboard_y` is removed from the active list and
contributes one impact record; the rest survive in order.  Returns
`(surviving particles, impacts)`. -/
def checkKeyboardImpacts (keyboardY : ℚ) :
    List FluidParticle → List FluidParticle × List ImpactEvent
  | [] => ([], [])
  | p :: rest =>
    let r := checkKeyboardImpacts keyboardY rest
    if keyboardY ≤ p.y then (r.1, mkImpact keyboardY p :: r.2)
    else (p :: r.1, r.2)

/-! ## Integration step of `_update_physics` (lines 380-421) -/

/-- The force/velocity/position part of the loop body (lines 380–403):
overwrite `(ax, ay)` with `(0, GRAVITY)`, add the noise-scaled pressure term
and the viscosity term when `density > 0`, then the damped semi-implicit
Euler update of velocity and position. -/
def integrateMotion (dt noise : ℚ) (p : FluidParticle) : FluidParticle :=
  let ax0 : ℚ := 0
  let ay0 : ℚ := GRAVITY
  let ax1 := if 0 < p.density then ax0 + (-p.pressure / p.density) * noise else ax0
  let viscCond : Prop :=
    0 < p.density ∧ (p.viscosity_force_x ≠ 0 ∨ p.viscosity_force_y ≠ 0)
  let ax2 := if viscCond then ax1 + VISCOSITY * p.viscosity_force_x / p.density else ax1
  let ay1 := if viscCond then ay0 + VISCOSITY * p.viscosity_force_y / p.density else ay0
  let vx1 := (p.vx + ax2 * dt) * DAMPING
  let vy1 := (p.vy + ay1 * dt) * DAMPING
  { p with ax := ax2, ay := ay1, vx := vx1, vy := vy1,
           x := p.x + vx1 * dt, y := p.y + vy1 * dt }

/-- The aging/fade part of the loop body (lines 408–413): `age += dt`, and
past `fade_start = 0.75 × lifetime` recompute
`alpha = int(255 · (1 − progress²))`. -/
def ageFade (dt : ℚ) (p : FluidParticle) : FluidParticle :=
  let age1 := p.age + dt
  let fadeStart := p.lifetime * (3/4)
  let alpha1 :=
    if fadeStart < age1 then
      pyTrunc (255 * (1 - ((age1 - fadeStart) / (p.lifetime - fadeStart)) ^ 2))
    else p.alpha
  { p with age := age1, alpha := alpha1 }

/-- The full per-particle body of the integration loop: motion update,
boundary conditions, then aging/fade, in source order. -/
def integrateParticle (width height dt noise : ℚ) (p : FluidParticle) :
    FluidParticle :=
  ageFade dt (applyBoundaryConditions width height (integrateMotion dt noise p))

/-- The whole particle loop of `_update_physics`: integrate each particle in
order (with its own noise sample, indexed by position) and drop those whose
updated `age >= lifetime`. -/
def tickParticles (width height dt : ℚ) (noise : ℕ → ℚ) :
    ℕ → List FluidParticle → List FluidParticle
  | _, [] => []
  | i, p :: rest =>
    let q := integrateParticle width height dt (noise i) p
    if q.age < q.lifetime then q :: tickParticles width height dt noise (i+1) rest
    else tickParticles width height dt noise (i+1) rest

/-- A concrete particle 10 pixels below the keyboard line of an 800×600
screen, falling at `vy = 100`. -/
def keyboardHitParticle : FluidParticle :=
  { pid := 0, x := 100, y := 560, vx := 0, vy := 100, ax := 0, ay := 0,
    mass := 1, density := 1000, pressure := 0, viscosity_force_x := 0,
    viscosity_force_y := 0, alpha := 255, age := 0, lifetime := 8,
    size := 4, pitch := 60, velocity := 1/2, color := (220, 80, 100) }

/-- A concrete in-bounds particle moving right at `vx = 100` (zero pressure
and viscosity so no force terms apply). -/
def movingParticle : FluidParticle :=
  { pid := 1, x := 100, y := 100, vx := 100, vy := 0, ax := 0, ay := 0,
    mass := 1, density := 1000, pressure := 0, viscosity_force_x := 0,
    viscosity_force_y := 0, alpha := 255, age := 0, lifetime := 8,
    size := 4, pitch := 60, velocity := 1/2, color := (220, 80, 100) }

/-! ## `_spawn_droplets_for_note` -/

/-- The fixed 12-entry chromatic palette `self.chromatic_colors`. -/
def chromaticColors : List (ℤ × ℤ × ℤ) :=
  [(220, 80, 100), (240, 100, 80), (240, 150, 60), (230, 200, 60),
   (200, 220, 80), (120, 220, 100), (80, 220, 150), (80, 200, 240),
   (100, 160, 240), (140, 120, 240), (200, 100, 240), (240, 80, 200)]

/-- `count = max(2, int(5 + velocity_norm * 8))` — note `int()` truncation,
not rounding. -/
def spawnCount (velocityNorm : ℚ) : ℤ := max 2 (pyTrunc (5 + velocityNorm * 8))

/-- The body of `_spawn_droplets_for_note` given the normalized velocity:
spawn `spawnCount` particles at `x = (pitch/127)·width + uniform(-20, 20)`,
`y = 20 + uniform(-5, 5)`, with mass `0.5 + velocity_norm·0.5`.  The jitter
streams `offX`, `offY` and the initial drift `vxInit` model the
`random.uniform` draws for the i-th particle. -/
def spawnDroplets (width : ℚ) (pitch : ℤ) (velocityNorm : ℚ)
    (color : ℤ × ℤ × ℤ) (offX offY vxInit : ℕ → ℚ) : List FluidParticle :=
  (List.range (spawnCount velocityNorm).toNat).map fun i =>
    mkFluidParticle i ((pitch : ℚ) / 127 * width + offX i) (20 + offY i)
      pitch velocityNorm color (1/2 + velocityNorm * (1/2)) (vxInit i)

/-- `_spawn_droplets_for_note` proper: color from the chromatic palette at
`pitch mod 12` and `velocity_norm = velocity / 127`. -/
def spawnDropletsForNote (width : ℚ) (pitch velocity : ℤ)
    (offX offY vxInit : ℕ → ℚ) : List FluidParticle :=
  spawnDroplets width pitch ((velocity : ℚ) / 127)
    (chromaticColors.getD (pitch % 12).toNat (0, 0, 0)) offX offY vxInit

/-! ## `RippleWave` and `_create_ripple` -/

/-- State of one `RippleWave`. -/
structure RippleWave where
  x : ℚ
  y : ℚ
  radius : ℚ
  maxRadius : ℚ
  amplitude : ℚ
  speed : ℚ
  age : ℚ
  lifetime : ℚ
  damping : ℚ
deriving DecidableEq

/-- `RippleWave.__init__`: radius 5, max radius 200, lifetime 1.2 s,
amplitude damping 0.95 per tick. -/
def mkRippleWave (x y amplitude speed : ℚ) : RippleWave :=
  { x := x, y := y, radius := 5, maxRadius := 200, amplitude := amplitude,
    speed := speed, age := 0, lifetime := 12/10, damping := 95/100 }

/-- `RippleWave.update`: age by `dt`, grow the radius by `speed * dt`,
damp the amplitude. -/
def RippleWave.update (r : RippleWave) (dt : ℚ) : RippleWave :=
  { r with age := r.age + dt, radius := r.radius + r.speed * dt,
           amplitude := r.amplitude * r.damping }

/-- `RippleWave.is_alive`: `age < lifetime and radius < max_radius`. -/
def RippleWave.isAlive (r : RippleWave) : Bool :=
  decide (r.age < r.lifetime ∧ r.radius < r.maxRadius)

/-- `_create_ripple`: one `RippleWave` with `amplitude = 2 + velocity·0.03`
and `speed = 120 + velocity·20`. -/
def createRipple (x y velocity : ℚ) : RippleWave :=
  mkRippleWave x y (2 + velocity * (3/100)) (120 + velocity * 20)

/-- The ripple part of `_update_physics` (lines 424–428): update every
ripple by `dt` and remove the ones that are no longer alive. -/
def tickRipples (dt : ℚ) (rs : List RippleWave) : List RippleWave :=
  (rs.map (fun r => r.update dt)).filter (fun r => r.isAlive)

/-- Iterated ripple updates at the source's fixed tick `dt = 1/60`. -/
def rippleIterate (r : RippleWave) : ℕ → RippleWave
  | 0 => r
  | n + 1 => (rippleIterate r n).update PHYSICS_DT

/-! ## `_create_splash` and `_shimmer_color` -/

/-- `_shimmer_color`: additive shift with per-channel clamps, `shift`
modelling the `random.uniform(10, 40)` draw. -/
def shimmerColor (color : ℤ × ℤ × ℤ) (shift : ℚ) : ℤ × ℤ × ℤ :=
  (min 255 (pyTrunc ((color.1 : ℚ) + shift)),
   min 255 (pyTrunc ((color.2.1 : ℚ) + shift * (1/2))),
   max 50 (pyTrunc ((color.2.2 : ℚ) + shift * (3/10))))

/-- One splash particle as built inside `_create_splash`: a `FluidParticle`
of mass 0.3 whose `vx`, `vy` and `lifetime` are overwritten right after
construction.  The polar launch data is kept alongside the Cartesian
velocity: `angleTurn = i / max(1, count)` is the fraction of the full
circle, so `angle = angleTurn · 2π`. -/
structure SplashDroplet where
  x : ℚ
  y : ℚ
  angleTurn : ℚ
  speed : ℚ
  vx : ℝ
  vy : ℝ
  lifetime : ℚ
  color : ℤ × ℤ × ℤ
  mass : ℚ

/-- `_create_splash`: `int(8 + velocity·0.15)` particles, the i-th launched
at angle `(i / max(1, count))·2π` with speed `80 + velocity·0.5`, vertical
velocity biased upward by −100, positional jitter ±5, horizontal velocity
jitter ±10, lifetime `0.4 + uniform(0, 0.2)`, and a shimmer-shifted color. -/
noncomputable def createSplash (x y : ℚ) (color : ℤ × ℤ × ℤ) (velocity : ℚ)
    (jx jy jvx jlife shift : ℕ → ℚ) : List SplashDroplet :=
  let count := (pyTrunc (8 + velocity * (15/100))).toNat
  (List.range count).map fun (i : ℕ) =>
    let angleTurn : ℚ := (i : ℚ) / ((max 1 count : ℕ) : ℚ)
    let speed : ℚ := 80 + velocity * (1/2)
    { x := x + jx i
      y := y + jy i
      angleTurn := angleTurn
      speed := speed
      vx := Real.cos ((angleTurn : ℝ) * (2 * Real.pi)) * (speed : ℝ) + (jvx i : ℝ)
      vy := Real.sin ((angleTurn : ℝ) * (2 * Real.pi)) * (speed : ℝ) - 100
      lifetime := 2/5 + jlife i
      color := shimmerColor color (shift i)
      mass := 3/10 }

/-- The first splash droplet of a velocity-120 impact with zero jitter
(the default is irrelevant: the list has 26 elements). -/
noncomputable def sampleSplashDroplet : SplashDroplet :=
  (createSplash 0 0 ((0:ℤ), (0:ℤ), (0:ℤ)) 120 (fun _ => 0) (fun _ => 0)
    (fun _ => 0) (fun _ => 0) (fun _ => 0)).headD
    { x := 0, y := 0, angleTurn := 0, speed := 0, vx := 0, vy := 0,
      lifetime := 0, color := (0, 0, 0), mass := 0 }

/-! ## SPH kernel layer (`_calculate_density`, `_calculate_pressure_force`) -/

/-- `POLY6_CONST = 315.0 / (64.0 * math.pi)` -/
noncomputable def POLY6_CONST : ℝ := 315 / (64 * Real.pi)

/-- `SPIKY_CONST = -45.0 / math.pi` -/
noncomputable def SPIKY_CONST : ℝ := -45 / Real.pi

/-- `KERNEL_RADIUS` as a real number. -/
def KERNEL_RADIUS_R : ℝ := 15

/-- `REST_DENSITY` as a real number. -/
def REST_DENSITY_R : ℝ := 1000

/-- The slice of a `FluidParticle` read by the kernel computations. -/
structure SPHParticleR where
  x : ℝ
  y : ℝ
  ax : ℝ
  ay : ℝ
  mass : ℝ
  density : ℝ
  pressure : ℝ

/-- One neighbor's Poly6 density contribution:
`neighbor.mass * POLY6_CONST * (h² − r²)³ / (r² + 0.0001)` for `r < h`,
with `r = sqrt(r_sq)` (or `0.001` when `r_sq` is zero). -/
noncomputable def poly6Contribution (p n : SPHParticleR) : ℝ :=
  let rSq := (p.x - n.x) ^ 2 + (p.y - n.y) ^ 2
  let r := if 0 < rSq then Real.sqrt rSq else 1/1000
  if r < KERNEL_RADIUS_R then
    n.mass * (POLY6_CONST * (KERNEL_RADIUS_R ^ 2 - rSq) ^ 3 / (rSq + 1/10000))
  else 0

/-- `_calculate_density`: neighbor contributions plus the particle's own
`mass * POLY6_CONST * (h²)³`, floored at `REST_DENSITY * 0.5`. -/
noncomputable def calculateDensity (p : SPHParticleR)
    (neighbors : List SPHParticleR) : ℝ :=
  let base := (neighbors.map (poly6Contribution p)).sum
  let selfTerm := p.mass * (POLY6_CONST * (KERNEL_RADIUS_R ^ 2) ^ 3)
  max (REST_DENSITY_R * (1/2)) (base + selfTerm)

/-- `_calculate_pressure_force`: accumulate the Spiky-kernel pressure
gradient over the neighbors and add the result, divided by the particle's
density, into the particle's acceleration. -/
noncomputable def calculatePressureForce (p : SPHParticleR)
    (neighbors : List SPHParticleR) : SPHParticleR :=
  let pf := neighbors.foldl
    (fun (acc : ℝ × ℝ) n =>
      let rSq := (p.x - n.x) ^ 2 + (p.y - n.y) ^ 2
      let r := if 0 < rSq then Real.sqrt rSq else 1/1000
      if r < KERNEL_RADIUS_R then
        let gradKernel := SPIKY_CONST * (KERNEL_RADIUS_R - r) ^ 2
        let scale := -n.mass * (p.pressure + n.pressure) / (2 * n.density)
        (acc.1 + scale * gradKernel * (p.x - n.x) / (r + 1/10000),
         acc.2 + scale * gradKernel * (p.y - n.y) / (r + 1/10000))
      else acc)
    (0, 0)
  { p with ax := p.ax + pf.1 / p.density, ay := p.ay + pf.2 / p.density }

/-- A particle at `(10, 0)` with pressure 2 and density 1000. -/
def pressureProbe : SPHParticleR :=
  { x := 10, y := 0, ax := 0, ay := 0, mass := 1, density := 1000, pressure := 2 }

/-- A neighbor at the origin, 10 units away from `pressureProbe`. -/
def pressureNeighbor : SPHParticleR :=
  { x := 0, y := 0, ax := 0, ay := 0, mass := 1, density := 1000, pressure := 2 }

/-! ## `update_time` note gating (`_last_note_times`) and `reset` -/

/-- The slice of `LiquidMode` state driving droplet spawning:
`_last_frame_time` and the `_last_note_times` dict (pitch ↦ record time). -/
structure GateState where
  lastFrameTime : ℚ
  lastNoteTimes : List (ℤ × ℚ)
deriving DecidableEq

/-- The effect of `reset()` on the gating state: `_last_note_times.clear()`
(`_last_frame_time` is untouched by `reset` itself). -/
def resetGate (st : GateState) : GateState := { st with lastNoteTimes := [] }

/-- `pitch in self._last_note_times`. -/
def hasPitch (rec : List (ℤ × ℚ)) (pitch : ℤ) : Bool :=
  rec.any (fun e => e.1 == pitch)

/-- The `for note in active_notes` loop of `update_time`: spawn for every
pitch not yet in `_last_note_times`, recording it at the current time.
Returns the updated record and the pitches spawned in this call. -/
def processActiveNotes (t : ℚ) :
    List (ℤ × ℚ) → List ℤ → List (ℤ × ℚ) × List ℤ
  | rec, [] => (rec, [])
  | rec, pitch :: rest =>
    if hasPitch rec pitch then processActiveNotes t rec rest
    else
      let r := processActiveNotes t ((pitch, t) :: rec) rest
      (r.1, pitch :: r.2)

/-- The gating behavior of one `update_time(current_time)` call: reset when
the clock jumped backward (`dt < 0`), set `_last_frame_time`, then run the
spawning loop over the active pitches. -/
def updateTimeGate (st : GateState) (t : ℚ) (pitches : List ℤ) :
    GateState × List ℤ :=
  let st1 := if t - st.lastFrameTime < 0 then resetGate st else st
  let r := processActiveNotes t st1.lastNoteTimes pitches
  ({ lastFrameTime := t, lastNoteTimes := r.1 }, r.2)

/-- A sequence of `update_time` calls; collects all spawned pitches. -/
def runUpdates (st : GateState) : List (ℚ × List ℤ) → GateState × List ℤ
  | [] => (st, [])
  | (t, ns) :: rest =>
    let r := updateTimeGate st t ns
    let r2 := runUpdates r.1 rest
    (r2.1, r.2 ++ r2.2)

/-- No call of the sequence presents a time earlier than the state's
`_last_frame_time` (so the `dt < 0` reset branch never runs). -/
def noBackwardJump (st : GateState) : List (ℚ × List ℤ) → Bool
  | [] => true
  | (t, ns) :: rest =>
    decide (st.lastFrameTime ≤ t) && noBackwardJump (updateTimeGate st t ns).1 rest

/-! ## Theorems: truncation and cell hashing -/

theorem pyTrunc_nonneg_eq_floor {q : ℚ} (h : 0 ≤ q) : pyTrunc q = ⌊q⌋ := by
  simp [pyTrunc, h]

theorem floor_diff_le (a b : ℚ) (h : a ≤ b + 1) : ⌊a⌋ ≤ ⌊b⌋ + 1 := by
  have h1 : ⌊a⌋ ≤ ⌊b + 1⌋ := Int.floor_le_floor h
  have h2 : ⌊b + (1 : ℤ)⌋ = ⌊b⌋ + 1 := Int.floor_add_int b 1
  have h3 : ⌊b + ((1 : ℤ) : ℚ)⌋ = ⌊b + 1⌋ := by norm_num
  omega

theorem ceil_diff_le (a b : ℚ) (h : a ≤ b + 1) : ⌈a⌉ ≤ ⌈b⌉ + 1 := by
  have h1 : ⌈a⌉ ≤ ⌈b + 1⌉ := Int.ceil_le_ceil h
  have h2 : ⌈b + (1 : ℤ)⌉ = ⌈b⌉ + 1 := Int.ceil_add_int b 1
  have h3 : ⌈b + ((1 : ℤ) : ℚ)⌉ = ⌈b + 1⌉ := by norm_num
  omega

/-- If two rationals are within 1 of each other, their Python truncations
are within 1 of each other (this is where truncation-toward-zero, rather
than flooring, of negative cell coordinates is accounted for). -/
theorem pyTrunc_diff_le (a b : ℚ) (h : |a - b| < 1) :
    (pyTrunc a - pyTrunc b).natAbs ≤ 1 := by
  obtain ⟨h1, h2⟩ := abs_lt.mp h
  unfold pyTrunc
  by_cases ha : 0 ≤ a <;> by_cases hb : 0 ≤ b <;> simp only [ha, hb, if_pos, if_neg, if_true, if_false]
  · have k1 : ⌊a⌋ ≤ ⌊b⌋ + 1 := floor_diff_le a b (by linarith)
    have k2 : ⌊b⌋ ≤ ⌊a⌋ + 1 := floor_diff_le b a (by linarith)
    omega
  · -- 0 ≤ a, b < 0: then a < 1 and -1 < b
    push_neg at hb
    have hfa : ⌊a⌋ = 0 := by
      rw [Int.floor_eq_zero_iff]
      constructor
      · exact ha
      · linarith
    have hcb : ⌈b⌉ = 0 := by
      rw [Int.ceil_eq_zero_iff]
      constructor
      · linarith
      · linarith
    omega
  · -- a < 0, 0 ≤ b
    push_neg at ha
    have hcb : ⌈a⌉ = 0 := by
      rw [Int.ceil_eq_zero_iff]
      constructor
      · linarith
      · linarith
    have hfa : ⌊b⌋ = 0 := by
      rw [Int.floor_eq_zero_iff]
      constructor
      · exact hb
      · linarith
    omega
  · have k1 : ⌈a⌉ ≤ ⌈b⌉ + 1 := ceil_diff_le a b (by linarith)
    have k2 : ⌈b⌉ ≤ ⌈a⌉ + 1 := ceil_diff_le b a (by linarith)
    omega

/-- Coordinates less than 15 apart land in cells (of size 30) at most one
index apart. -/
theorem cell_coord_close (a b : ℚ) (h : |a - b| < 15) :
    (pyTrunc (a / 30) - pyTrunc (b / 30)).natAbs ≤ 1 := by
  apply pyTrunc_diff_le
  have heq : a / 30 - b / 30 = (a - b) / 30 := by ring
  rw [heq, abs_div]
  have h30 : |(30 : ℚ)| = 30 := by norm_num
  rw [h30]
  linarith

/-! ## Theorems: the spatial hash grid (C3) -/

/-- Membership in the grid built by folding `insert` over the particle
list: a particle is in cell `k` iff it is in the list and hashes to `k`. -/
theorem mem_foldl_gridInsert (cellSize : ℚ) (ps : List FluidParticle)
    (g : Grid) (k : ℤ × ℤ) (q : FluidParticle) :
    q ∈ ps.foldl (gridInsert cellSize) g k ↔
      q ∈ g k ∨ (q ∈ ps ∧ cellOf cellSize q = k) := by
  induction ps generalizing g with
  | nil => simp
  | cons p rest ih =>
    rw [List.foldl_cons, ih]
    show q ∈ (if k = cellOf cellSize p then g k ++ [p] else g k) ∨ _ ↔ _
    by_cases hk : k = cellOf cellSize p
    · rw [if_pos hk]
      simp only [List.mem_append, List.mem_cons, List.not_mem_nil, or_false]
      constructor
      · rintro (⟨hg | hq⟩ | ⟨hrest, hc⟩)
        · exact Or.inl hg
        · exact Or.inr ⟨Or.inl hq, by rw [hq]; exact hk.symm⟩
        · exact Or.inr ⟨Or.inr hrest, hc⟩
      · rintro (hg | ⟨hp | hrest, hc⟩)
        · exact Or.inl (Or.inl hg)
        · exact Or.inl (Or.inr hp)
        · exact Or.inr ⟨hrest, hc⟩
    · rw [if_neg hk]
      simp only [List.mem_cons]
      constructor
      · rintro (hg | ⟨hrest, hc⟩)
        · exact Or.inl hg
        · exact Or.inr ⟨Or.inr hrest, hc⟩
      · rintro (hg | ⟨hp | hrest, hc⟩)
        · exact Or.inl hg
        · exact absurd hc (by rw [hp]; exact fun hcc => hk hcc.symm)
        · exact Or.inr ⟨hrest, hc⟩

theorem mem_buildGrid (cellSize : ℚ) (ps : List FluidParticle) (k : ℤ × ℤ)
    (q : FluidParticle) :
    q ∈ buildGrid cellSize ps k ↔ q ∈ ps ∧ cellOf cellSize q = k := by
  unfold buildGrid
  rw [mem_foldl_gridInsert]
  simp

theorem searchOffsets_one : searchOffsets 1 = [-1, 0, 1] := by decide

/-- Membership characterization of the spatial-hash neighbor query at the
configuration used by `_update_physics`: cell size `30 = 2 × kernel radius`,
query radius `15 = kernel radius`. -/
theorem neighbors_mem_iff (ps : List FluidParticle) (p q : FluidParticle) :
    q ∈ get_neighbors 30 15 (buildGrid 30 ps) p ↔
      q ∈ ps ∧ q ≠ p ∧ distSq p q < 15 ^ 2 := by
  have hs : pyTrunc ((15 : ℚ) / 30) + 1 = 1 := by
    have h0 : pyTrunc ((15 : ℚ) / 30) = 0 := by
      rw [pyTrunc, if_pos (by norm_num : (0:ℚ) ≤ 15/30), Int.floor_eq_zero_iff]
      constructor <;> norm_num
    omega
  simp only [get_neighbors, hs, searchOffsets_one]
  constructor
  · intro hmem
    rw [List.mem_flatMap] at hmem
    obtain ⟨dx, _hdx, hmem⟩ := hmem
    rw [List.mem_flatMap] at hmem
    obtain ⟨dy, _hdy, hmem⟩ := hmem
    rw [List.mem_filter] at hmem
    obtain ⟨hgrid, hcond⟩ := hmem
    rw [decide_eq_true_iff] at hcond
    rw [mem_buildGrid] at hgrid
    exact ⟨hgrid.1, hcond.2, hcond.1⟩
  · rintro ⟨hps, hne, hdist⟩
    have hd : (p.x - q.x) ^ 2 + (p.y - q.y) ^ 2 < 15 ^ 2 := hdist
    have hxabs : |q.x - p.x| < 15 := by
      apply abs_lt.mpr
      constructor
      · nlinarith [sq_nonneg (p.y - q.y)]
      · nlinarith [sq_nonneg (p.y - q.y)]
    have hyabs : |q.y - p.y| < 15 := by
      apply abs_lt.mpr
      constructor
      · nlinarith [sq_nonneg (p.x - q.x)]
      · nlinarith [sq_nonneg (p.x - q.x)]
    have hcx := cell_coord_close q.x p.x hxabs
    have hcy := cell_coord_close q.y p.y hyabs
    rw [List.mem_flatMap]
    refine ⟨pyTrunc (q.x / 30) - pyTrunc (p.x / 30), ?_, ?_⟩
    · have h3 : pyTrunc (q.x / 30) - pyTrunc (p.x / 30) = -1 ∨
          pyTrunc (q.x / 30) - pyTrunc (p.x / 30) = 0 ∨
          pyTrunc (q.x / 30) - pyTrunc (p.x / 30) = 1 := by omega
      rcases h3 with h3 | h3 | h3 <;> rw [h3] <;> simp
    rw [List.mem_flatMap]
    refine ⟨pyTrunc (q.y / 30) - pyTrunc (p.y / 30), ?_, ?_⟩
    · have h3 : pyTrunc (q.y / 30) - pyTrunc (p.y / 30) = -1 ∨
          pyTrunc (q.y / 30) - pyTrunc (p.y / 30) = 0 ∨
          pyTrunc (q.y / 30) - pyTrunc (p.y / 30) = 1 := by omega
      rcases h3 with h3 | h3 | h3 <;> rw [h3] <;> simp
    rw [List.mem_filter]
    constructor
    · rw [mem_buildGrid]
      refine ⟨hps, ?_⟩
      unfold cellOf
      simp only [Prod.mk.injEq]
      constructor <;> ring
    · rw [decide_eq_true_iff]
      exact ⟨hdist, hne⟩

/-- C3: the spatial-hash neighbor query, at cell size `2 × kernel radius`
and query radius equal to the kernel radius, returns (as a set) exactly the
brute-force neighbor set: the particles other than the query particle whose
Euclidean distance to it is strictly below the radius — for arbitrary,
including negative, particle coordinates. -/
theorem C3_spatial_hash_equals_brute_force (ps : List FluidParticle)
    (p q : FluidParticle) :
    q ∈ get_neighbors (KERNEL_RADIUS * 2) KERNEL_RADIUS
        (buildGrid (KERNEL_RADIUS * 2) ps) p ↔
      q ∈ bruteForceNeighbors ps p KERNEL_RADIUS := by
  have h30 : KERNEL_RADIUS * 2 = 30 := by norm_num [KERNEL_RADIUS]
  have h15 : KERNEL_RADIUS = 15 := rfl
  rw [h30, h15, neighbors_mem_iff]
  unfold bruteForceNeighbors
  rw [List.mem_filter, decide_eq_true_iff]

/-! ## Theorems: boundary conditions and keyboard impacts (C1) -/

/-- The survivors of the impact sweep are exactly the particles strictly
above the keyboard line, in order. -/
theorem checkKeyboardImpacts_fst (keyboardY : ℚ) (ps : List FluidParticle) :
    (checkKeyboardImpacts keyboardY ps).1 =
      ps.filter fun p => decide (p.y < keyboardY) := by
  induction ps with
  | nil => rfl
  | cons p rest ih =>
    rw [checkKeyboardImpacts, List.filter_cons]
    by_cases hc : keyboardY ≤ p.y
    · rw [if_pos hc]
      have : decide (p.y < keyboardY) = false := by
        simp [not_lt.mpr hc]
      rw [this]
      simpa using ih
    · rw [if_neg hc]
      have : decide (p.y < keyboardY) = true := by
        simp [lt_of_not_le hc]
      rw [this]
      simpa using ih

/-- The impact list is exactly one record per particle at or below the
keyboard line, carrying `{x, keyboard_y, |vy|, color}`. -/
theorem checkKeyboardImpacts_snd (keyboardY : ℚ) (ps : List FluidParticle) :
    (checkKeyboardImpacts keyboardY ps).2 =
      (ps.filter fun p => decide (keyboardY ≤ p.y)).map (mkImpact keyboardY) := by
  induction ps with
  | nil => rfl
  | cons p rest ih =>
    rw [checkKeyboardImpacts, List.filter_cons]
    by_cases hc : keyboardY ≤ p.y
    · rw [if_pos hc]
      have : decide (keyboardY ≤ p.y) = true := by simp [hc]
      rw [this]
      simpa using ih
    · rw [if_neg hc]
      have : decide (keyboardY ≤ p.y) = false := by simp [hc]
      rw [this]
      simpa using ih

/-- Boundary resolution is the identity on an in-bounds particle. -/
theorem applyBoundary_inBounds (width height : ℚ) (p : FluidParticle)
    (h1 : ¬ p.x < 5) (h2 : ¬ p.x > width - 5)
    (h3 : ¬ p.y > height - KEYBOARD_HEIGHT) (h4 : ¬ p.y < 5) :
    applyBoundaryConditions width height p = p := by
  unfold applyBoundaryConditions boundarySideWalls boundaryKeyboard boundaryTop
  rw [if_neg h1, if_neg h2, if_neg h3, if_neg h4]

/-- Boundary resolution never touches `age`, `lifetime`, `alpha` or
`density`. -/
theorem applyBoundary_preserves (width height : ℚ) (p : FluidParticle) :
    (applyBoundaryConditions width height p).age = p.age ∧
    (applyBoundaryConditions width height p).lifetime = p.lifetime ∧
    (applyBoundaryConditions width height p).alpha = p.alpha ∧
    (applyBoundaryConditions width height p).density = p.density := by
  unfold applyBoundaryConditions boundarySideWalls boundaryKeyboard boundaryTop
  repeat' split
  all_goals simp

/-- The side-wall block never touches `y` or `vy`. -/
theorem sideWalls_y_vy (width : ℚ) (p : FluidParticle) :
    (boundarySideWalls width p).y = p.y ∧
    (boundarySideWalls width p).vy = p.vy := by
  unfold boundarySideWalls
  repeat' split
  all_goals simp

/-- C1 counterexample: a particle at or below the keyboard line
(`y = 560 ≥ 550 = 600 − 50`) IS reflected by the boundary-resolution step of
the physics tick: `_apply_boundary_conditions` clamps it to
`keyboard_y − 2 = 548` and reverses its vertical velocity
(`vy: 100 ↦ −60`), contradicting the claim that no boundary-resolution step
clamps such a particle above the line and reverses its velocity. -/
theorem C1_counterexample_keyboard_reflection :
    600 - KEYBOARD_HEIGHT ≤ keyboardHitParticle.y ∧
    (applyBoundaryConditions 800 600 keyboardHitParticle).y = 548 ∧
    (applyBoundaryConditions 800 600 keyboardHitParticle).vy = -60 := by
  refine ⟨by norm_num [keyboardHitParticle, KEYBOARD_HEIGHT], ?_, ?_⟩ <;>
    norm_num [applyBoundaryConditions, boundarySideWalls, boundaryKeyboard,
      boundaryTop, keyboardHitParticle, KEYBOARD_HEIGHT]

/-- C1 (amended): the impact sweep `_check_keyboard_impacts` removes every
particle with `y ≥ keyboard_y` from the active list and reports exactly one
impact event `{x, keyboard_y, |vy|, color}` per removed particle; however
the boundary-resolution step `_apply_boundary_conditions` of the physics
tick does NOT remove a particle that crossed the line — it clamps its
position to `keyboard_y − 2` above the line and reverses its vertical
velocity by the factor `−0.6`. -/
theorem C1_keyboard_impacts_amended :
    (∀ (keyboardY : ℚ) (ps : List FluidParticle),
      (checkKeyboardImpacts keyboardY ps).1 =
        ps.filter fun p => decide (p.y < keyboardY)) ∧
    (∀ (keyboardY : ℚ) (ps : List FluidParticle),
      (checkKeyboardImpacts keyboardY ps).2 =
        (ps.filter fun p => decide (keyboardY ≤ p.y)).map (mkImpact keyboardY)) ∧
    (∀ (width height : ℚ) (p : FluidParticle),
      height - KEYBOARD_HEIGHT < p.y → 5 ≤ height - KEYBOARD_HEIGHT - 2 →
      (applyBoundaryConditions width height p).y = height - KEYBOARD_HEIGHT - 2 ∧
      (applyBoundaryConditions width height p).vy = p.vy * (-6/10)) := by
  refine ⟨checkKeyboardImpacts_fst, checkKeyboardImpacts_snd, ?_⟩
  intro width height p h1 h2
  obtain ⟨hy, hvy⟩ := sideWalls_y_vy width p
  unfold applyBoundaryConditions
  have hk : boundaryKeyboard height (boundarySideWalls width p) =
      { boundarySideWalls width p with
        y := height - KEYBOARD_HEIGHT - 2,
        vy := (boundarySideWalls width p).vy * (-6/10) } := by
    unfold boundaryKeyboard
    rw [if_pos (by rw [hy]; exact h1)]
  rw [hk]
  unfold boundaryTop
  rw [if_neg (by simp; linarith)]
  simp [hvy]

/-- C1 witness: the amended reflection clause applied to the concrete
particle `keyboardHitParticle` on an 800×600 screen. -/
theorem C1_keyboard_impacts_witness :
    (applyBoundaryConditions 800 600 keyboardHitParticle).y =
      600 - KEYBOARD_HEIGHT - 2 ∧
    (applyBoundaryConditions 800 600 keyboardHitParticle).vy =
      keyboardHitParticle.vy * (-6/10) :=
  C1_keyboard_impacts_amended.2.2 800 600 keyboardHitParticle
    (by norm_num [keyboardHitParticle, KEYBOARD_HEIGHT])
    (by norm_num [KEYBOARD_HEIGHT])

/-! ## Theorems: the integration step (C8, C9) -/

/-- Every survivor of the particle loop is the integration of some input
particle (with some noise index) that passed the lifetime check. -/
theorem mem_tickParticles (width height dt : ℚ) (noise : ℕ → ℚ)
    (i : ℕ) (ps : List FluidParticle) (q : FluidParticle)
    (h : q ∈ tickParticles width height dt noise i ps) :
    ∃ j, ∃ p ∈ ps, q = integrateParticle width height dt (noise j) p ∧
      q.age < q.lifetime := by
  induction ps generalizing i with
  | nil => simp [tickParticles] at h
  | cons p rest ih =>
    rw [tickParticles] at h
    by_cases hc : (integrateParticle width height dt (noise i) p).age <
        (integrateParticle width height dt (noise i) p).lifetime
    · rw [if_pos hc] at h
      rcases List.mem_cons.mp h with hq | hq
      · exact ⟨i, p, List.mem_cons_self p rest, hq, by rw [hq]; exact hc⟩
      · obtain ⟨j, p2, hp2, he, hl⟩ := ih (i+1) hq
        exact ⟨j, p2, List.mem_cons_of_mem p hp2, he, hl⟩
    · rw [if_neg hc] at h
      obtain ⟨j, p2, hp2, he, hl⟩ := ih (i+1) h
      exact ⟨j, p2, List.mem_cons_of_mem p hp2, he, hl⟩

/-- C8 counterexample: a tick executed with `dt = 0` is NOT an identity on
particle state — the per-tick damping factor `0.98` still multiplies the
velocity, so `vx = 100` becomes `98`. -/
theorem C8_counterexample_damping_at_zero_dt :
    (integrateParticle 800 600 0 0 movingParticle).vx = 98 ∧
    movingParticle.vx = 100 := by
  constructor
  · norm_num [integrateParticle, integrateMotion, ageFade,
      applyBoundaryConditions, boundarySideWalls, boundaryKeyboard,
      boundaryTop, movingParticle, DAMPING, GRAVITY, VISCOSITY,
      KEYBOARD_HEIGHT]
  · rfl

/-- C8 (amended): a tick with `dt = 0` leaves every in-bounds particle's
position unchanged, but multiplies both velocity components by the per-tick
damping factor `DAMPING = 0.98` — so it is an identity on positions but not
on velocities. -/
theorem C8_zero_dt_tick_amended (width height noise : ℚ) (p : FluidParticle)
    (h1 : 5 ≤ p.x) (h2 : p.x ≤ width - 5) (h3 : 5 ≤ p.y)
    (h4 : p.y ≤ height - KEYBOARD_HEIGHT) :
    (integrateParticle width height 0 noise p).x = p.x ∧
    (integrateParticle width height 0 noise p).y = p.y ∧
    (integrateParticle width height 0 noise p).vx = p.vx * DAMPING ∧
    (integrateParticle width height 0 noise p).vy = p.vy * DAMPING := by
  unfold integrateParticle integrateMotion
  simp only [mul_zero, add_zero]
  rw [applyBoundary_inBounds width height _
    (by simp; linarith) (by simp; linarith) (by simp [KEYBOARD_HEIGHT] at *; linarith)
    (by simp; linarith)]
  simp [ageFade]

/-- C8 witness: the amended statement at the concrete `movingParticle` on an
800×600 screen. -/
theorem C8_zero_dt_tick_witness :
    (integrateParticle 800 600 0 0 movingParticle).x = movingParticle.x ∧
    (integrateParticle 800 600 0 0 movingParticle).y = movingParticle.y ∧
    (integrateParticle 800 600 0 0 movingParticle).vx = movingParticle.vx * DAMPING ∧
    (integrateParticle 800 600 0 0 movingParticle).vy = movingParticle.vy * DAMPING :=
  C8_zero_dt_tick_amended 800 600 0 movingParticle
    (by norm_num [movingParticle]) (by norm_num [movingParticle])
    (by norm_num [movingParticle]) (by norm_num [movingParticle, KEYBOARD_HEIGHT])

/-- The motion step never touches `age`, `lifetime`, `alpha` or `density`. -/
theorem integrateMotion_preserves (dt noise : ℚ) (p : FluidParticle) :
    (integrateMotion dt noise p).age = p.age ∧
    (integrateMotion dt noise p).lifetime = p.lifetime ∧
    (integrateMotion dt noise p).alpha = p.alpha ∧
    (integrateMotion dt noise p).density = p.density := by
  unfold integrateMotion
  simp

/-- The fade step keeps a surviving particle's alpha inside `[0, 255]`,
provided it was in range before and the lifetime is positive. -/
theorem ageFade_alpha_bounds (dt : ℚ) (p : FluidParticle)
    (ha0 : 0 ≤ p.alpha) (ha1 : p.alpha ≤ 255) (_hl : 0 < p.lifetime)
    (hsurv : (ageFade dt p).age < (ageFade dt p).lifetime) :
    0 ≤ (ageFade dt p).alpha ∧ (ageFade dt p).alpha ≤ 255 := by
  have hage : (ageFade dt p).age = p.age + dt := by simp [ageFade]
  have hlife : (ageFade dt p).lifetime = p.lifetime := by simp [ageFade]
  rw [hage, hlife] at hsurv
  by_cases hc : p.lifetime * (3/4) < p.age + dt
  · have halpha : (ageFade dt p).alpha =
        pyTrunc (255 * (1 - ((p.age + dt - p.lifetime * (3/4)) /
          (p.lifetime - p.lifetime * (3/4))) ^ 2)) := by
      simp only [ageFade]
      rw [if_pos hc]
    set A := p.age + dt with hA
    set L := p.lifetime with hL
    have hdenom : 0 < L - L * (3/4) := by linarith
    set ρ := (A - L * (3/4)) / (L - L * (3/4)) with hρ
    have hρ0 : 0 < ρ := div_pos (by linarith) hdenom
    have hρ1 : ρ < 1 := (div_lt_one hdenom).mpr (by linarith)
    have hval0 : 0 ≤ 255 * (1 - ρ ^ 2) := by nlinarith
    have hval1 : 255 * (1 - ρ ^ 2) ≤ 255 := by nlinarith [sq_nonneg ρ]
    rw [halpha, pyTrunc_nonneg_eq_floor hval0]
    constructor
    · exact Int.floor_nonneg.mpr hval0
    · have h255 : ⌊(255 : ℚ)⌋ = 255 := by norm_num
      have := Int.floor_le_floor hval1
      omega
  · have halpha : (ageFade dt p).alpha = p.alpha := by
      simp only [ageFade]
      rw [if_neg hc]
    rw [halpha]
    exact ⟨ha0, ha1⟩

/-- Alpha bounds for the whole integration step: a particle that enters the
tick with `0 ≤ alpha ≤ 255` and positive lifetime, and survives the
lifetime check, leaves the tick with `0 ≤ alpha ≤ 255`. -/
theorem integrate_alpha_bounds (width height dt noise : ℚ) (p : FluidParticle)
    (ha0 : 0 ≤ p.alpha) (ha1 : p.alpha ≤ 255) (hl : 0 < p.lifetime)
    (hsurv : (integrateParticle width height dt noise p).age <
      (integrateParticle width height dt noise p).lifetime) :
    0 ≤ (integrateParticle width height dt noise p).alpha ∧
    (integrateParticle width height dt noise p).alpha ≤ 255 := by
  have hm := integrateMotion_preserves dt noise p
  have hb := applyBoundary_preserves width height (integrateMotion dt noise p)
  unfold integrateParticle at hsurv ⊢
  apply ageFade_alpha_bounds
  · rw [hb.2.2.1, hm.2.2.1]; exact ha0
  · rw [hb.2.2.1, hm.2.2.1]; exact ha1
  · rw [hb.2.1, hm.2.1]; exact hl
  · exact hsurv

/-- C9: alpha stays in `[0, 255]`.  A fresh particle starts at `alpha = 255`,
and after a complete particle loop every surviving particle has
`0 ≤ alpha ≤ 255`: the quadratic fade writes `int(255·(1 − progress²))`
with `0 < progress < 1` for survivors (a particle whose fade progress would
reach 1 has `age ≥ lifetime` and is removed by the same tick). -/
theorem C9_alpha_in_range (width height dt : ℚ) (noise : ℕ → ℚ) (i : ℕ)
    (ps : List FluidParticle)
    (hpre : ∀ p ∈ ps, 0 ≤ p.alpha ∧ p.alpha ≤ 255 ∧ 0 < p.lifetime) :
    (∀ (pid : ℕ) (x y : ℚ) (pitch : ℤ) (vel : ℚ) (color : ℤ × ℤ × ℤ)
      (mass vxInit : ℚ),
      (mkFluidParticle pid x y pitch vel color mass vxInit).alpha = 255) ∧
    (∀ q ∈ tickParticles width height dt noise i ps,
      0 ≤ q.alpha ∧ q.alpha ≤ 255) := by
  constructor
  · intro pid x y pitch vel color mass vxInit
    rfl
  · intro q hq
    obtain ⟨j, p, hp, he, hsurv⟩ :=
      mem_tickParticles width height dt noise i ps q hq
    obtain ⟨ha0, ha1, hl⟩ := hpre p hp
    rw [he] at hsurv ⊢
    exact integrate_alpha_bounds width height dt (noise j) p ha0 ha1 hl hsurv

/-- C9 witness: the invariant applied to a one-particle list at the source's
fixed time step. -/
theorem C9_alpha_in_range_witness :
    (∀ (pid : ℕ) (x y : ℚ) (pitch : ℤ) (vel : ℚ) (color : ℤ × ℤ × ℤ)
      (mass vxInit : ℚ),
      (mkFluidParticle pid x y pitch vel color mass vxInit).alpha = 255) ∧
    (∀ q ∈ tickParticles 800 600 (1/60) (fun _ => 0) 0 [movingParticle],
      0 ≤ q.alpha ∧ q.alpha ≤ 255) :=
  C9_alpha_in_range 800 600 (1/60) (fun _ => 0) 0 [movingParticle]
    (by
      intro p hp
      rw [List.mem_singleton] at hp
      subst hp
      norm_num [movingParticle])

/-! ## Theorems: droplet spawning (C5) -/

/-- C5 counterexample: at `velocity_norm = 0.7` the code truncates
`5 + 0.7·8 = 10.6` down to 10 particles, while the claimed formula
`max(2, round(5 + v·8))` rounds it to 11. -/
theorem C5_counterexample_truncation_vs_round :
    spawnCount (7/10) = 10 ∧ max 2 (round ((5:ℚ) + (7/10) * 8)) = 11 := by
  constructor
  · have h : pyTrunc ((5:ℚ) + (7/10) * 8) = 10 := by
      rw [pyTrunc, if_pos (by norm_num), Int.floor_eq_iff]
      norm_num
    rw [spawnCount, h]
    norm_num
  · have h : round ((5:ℚ) + (7/10) * 8) = 11 := by
      rw [round_eq, Int.floor_eq_iff]
      norm_num
    rw [h]
    norm_num

/-- C5 (amended): spawning for a note with normalized velocity `v` creates
exactly `max(2, int(5 + v·8))` particles (truncation, not rounding — the
two agree at `v = 0.8`, where the count is 11), each placed within the
±20 horizontal jitter of `x = (pitch/127)·width`. -/
theorem C5_spawn_droplets_amended (width : ℚ) (pitch : ℤ) (v : ℚ)
    (color : ℤ × ℤ × ℤ) (offX offY vxInit : ℕ → ℚ)
    (hoff : ∀ i, |offX i| ≤ 20) :
    (spawnDroplets width pitch v color offX offY vxInit).length =
      (spawnCount v).toNat ∧
    (∀ q ∈ spawnDroplets width pitch v color offX offY vxInit,
      |q.x - (pitch : ℚ) / 127 * width| ≤ 20) ∧
    spawnCount (4/5) = 11 := by
  refine ⟨by simp [spawnDroplets], ?_, ?_⟩
  · intro q hq
    rw [spawnDroplets, List.mem_map] at hq
    obtain ⟨i, _hi, he⟩ := hq
    have hx : q.x = (pitch : ℚ) / 127 * width + offX i := by
      rw [← he]; rfl
    rw [hx]
    simpa using hoff i
  · have h : pyTrunc ((5:ℚ) + (4/5) * 8) = 11 := by
      rw [pyTrunc, if_pos (by norm_num), Int.floor_eq_iff]
      norm_num
    rw [spawnCount, h]
    norm_num

/-- C5 witness: the amended statement at `pitch = 60`, `velocity_norm =
0.8`, zero jitter, on an 800-wide screen. -/
theorem C5_spawn_droplets_witness :
    (spawnDroplets 800 60 (4/5) (120, 220, 100) (fun _ => 0) (fun _ => 0)
      (fun _ => 0)).length = (spawnCount (4/5)).toNat ∧
    (∀ q ∈ spawnDroplets 800 60 (4/5) (120, 220, 100) (fun _ => 0)
      (fun _ => 0) (fun _ => 0),
      |q.x - (60 : ℚ) / 127 * 800| ≤ 20) ∧
    spawnCount (4/5) = 11 :=
  C5_spawn_droplets_amended 800 60 (4/5) (120, 220, 100)
    (fun _ => 0) (fun _ => 0) (fun _ => 0) (fun i => by norm_num)

/-! ## Theorems: ripples (C7) -/

/-- `update` preserves the growth speed. -/
theorem rippleIterate_speed (r : RippleWave) (n : ℕ) :
    (rippleIterate r n).speed = r.speed := by
  induction n with
  | zero => rfl
  | succ n ih => rw [rippleIterate, RippleWave.update]; exact ih

/-- One update never shrinks the radius when the speed is nonnegative. -/
theorem rippleIterate_radius_mono_step (r : RippleWave) (n : ℕ)
    (hs : 0 ≤ r.speed) :
    (rippleIterate r n).radius ≤ (rippleIterate r (n + 1)).radius := by
  rw [rippleIterate, RippleWave.update]
  have h : 0 ≤ (rippleIterate r n).speed * PHYSICS_DT := by
    rw [rippleIterate_speed]
    have : (0:ℚ) ≤ PHYSICS_DT := by norm_num [PHYSICS_DT]
    exact mul_nonneg hs this
  simp only
  linarith

/-- C7: ripple lifecycle.  (i) A ripple created by `_create_ripple` from a
nonnegative impact velocity has nonnegative growth speed; (ii) over any
number of consecutive ticks the radius is monotonically non-decreasing
(for nonnegative speed); (iii) a ripple survives the prune of a tick iff it
is the update of a ripple of the previous list and its updated state
satisfies `age < lifetime ∧ radius < max_radius` — i.e. it is destroyed
exactly when `age ≥ lifetime` or `radius ≥ max_radius`. -/
theorem C7_ripple_lifecycle (v dt : ℚ) (hv : 0 ≤ v) (r : RippleWave)
    (hs : 0 ≤ r.speed) (m n : ℕ) (hmn : m ≤ n) (rs : List RippleWave) :
    0 ≤ (createRipple 0 0 v).speed ∧
    (rippleIterate r m).radius ≤ (rippleIterate r n).radius ∧
    (∀ q : RippleWave, q ∈ tickRipples dt rs ↔
      (∃ p ∈ rs, q = p.update dt) ∧
      (q.age < q.lifetime ∧ q.radius < q.maxRadius)) := by
  refine ⟨?_, ?_, ?_⟩
  · show (0:ℚ) ≤ 120 + v * 20
    linarith
  · induction n with
    | zero =>
      have hm : m = 0 := Nat.le_zero.mp hmn
      rw [hm]
    | succ n ih =>
      rcases Nat.le_succ_iff_eq_or_le.mp hmn with he | hle
      · rw [he]
      · exact le_trans (ih hle) (rippleIterate_radius_mono_step r n hs)
  · intro q
    rw [tickRipples, List.mem_filter, List.mem_map]
    rw [RippleWave.isAlive, decide_eq_true_iff]
    constructor
    · rintro ⟨⟨p, hp, he⟩, hc⟩
      exact ⟨⟨p, hp, he.symm⟩, hc⟩
    · rintro ⟨⟨p, hp, he⟩, hc⟩
      exact ⟨⟨p, hp, he.symm⟩, hc⟩

/-- C7 witness: lifecycle facts at a concrete ripple (impact velocity 120)
over two ticks, and the prune characterization on a one-ripple list. -/
theorem C7_ripple_lifecycle_witness :
    0 ≤ (createRipple 0 0 120).speed ∧
    (rippleIterate (createRipple 0 0 120) 0).radius ≤
      (rippleIterate (createRipple 0 0 120) 2).radius ∧
    (∀ q : RippleWave, q ∈ tickRipples (1/60) [mkRippleWave 0 0 1 150] ↔
      (∃ p ∈ [mkRippleWave 0 0 1 150], q = p.update (1/60)) ∧
      (q.age < q.lifetime ∧ q.radius < q.maxRadius)) :=
  C7_ripple_lifecycle 120 (1/60) (by norm_num) (createRipple 0 0 120)
    (by norm_num [createRipple, mkRippleWave]) 0 2 (by norm_num)
    [mkRippleWave 0 0 1 150]

/-! ## Theorems: impact effects (C6) -/

/-- At impact velocity 120 the splash count `int(8 + 120·0.15)` is 26. -/
theorem splashCount_at_120 :
    ((pyTrunc ((8:ℚ) + 120 * (15/100))).toNat) = 26 := by
  have h26 : ((8:ℚ) + 120 * (15/100)) = 26 := by norm_num
  rw [h26, pyTrunc, if_pos (by norm_num : (0:ℚ) ≤ 26)]
  have : ⌊(26:ℚ)⌋ = 26 := by
    rw [Int.floor_eq_iff]
    norm_num
  rw [this]
  rfl

/-- C6: each impact with velocity `v` yields one ripple with
`amplitude = 2 + 0.03·v` and `speed = 120 + 20·v`, and `int(8 + 0.15·v)`
splash particles whose launch angles run evenly over the full circle
(`angleTurn = i / max(1, count)` of a turn for the i-th droplet), each with
launch speed `80 + 0.5·v`, a vertical velocity biased upward by −100
relative to its polar component, and (for jitter within the `uniform(0,
0.2)` range) a lifetime in `[0.4, 0.6]`; at `v = 120` the ripple amplitude
is `5.6` and there are exactly 26 splash droplets; and the impact sweep
keeps no particle at or below the keyboard line. -/
theorem C6_impact_effects :
    (∀ x y v : ℚ, (createRipple x y v).amplitude = 2 + v * (3/100) ∧
      (createRipple x y v).speed = 120 + v * 20) ∧
    (∀ (x y : ℚ) (c : ℤ × ℤ × ℤ) (v : ℚ) (jx jy jvx jlife shift : ℕ → ℚ),
      (createSplash x y c v jx jy jvx jlife shift).length =
        (pyTrunc (8 + v * (15/100))).toNat) ∧
    (∀ (x y : ℚ) (c : ℤ × ℤ × ℤ) (v : ℚ) (jx jy jvx jlife shift : ℕ → ℚ),
      (createSplash x y c v jx jy jvx jlife shift).map (fun d => d.angleTurn) =
        (List.range ((pyTrunc (8 + v * (15/100))).toNat)).map
          (fun (i : ℕ) => (i : ℚ) /
            ((max 1 ((pyTrunc (8 + v * (15/100))).toNat) : ℕ) : ℚ))) ∧
    (∀ (x y : ℚ) (c : ℤ × ℤ × ℤ) (v : ℚ) (jx jy jvx jlife shift : ℕ → ℚ)
      (d : SplashDroplet), d ∈ createSplash x y c v jx jy jvx jlife shift →
      d.speed = 80 + v * (1/2) ∧
      d.vy = Real.sin ((d.angleTurn : ℝ) * (2 * Real.pi)) * (d.speed : ℝ) - 100 ∧
      ((∀ i, 0 ≤ jlife i ∧ jlife i ≤ 1/5) →
        2/5 ≤ d.lifetime ∧ d.lifetime ≤ 3/5)) ∧
    ((createRipple 0 0 120).amplitude = 28/5 ∧
      ∀ (x y : ℚ) (c : ℤ × ℤ × ℤ) (jx jy jvx jlife shift : ℕ → ℚ),
        (createSplash x y c 120 jx jy jvx jlife shift).length = 26) ∧
    (∀ (keyboardY : ℚ) (ps : List FluidParticle) (q : FluidParticle),
      q ∈ (checkKeyboardImpacts keyboardY ps).1 → q.y < keyboardY) := by
  refine ⟨?_, ?_, ?_, ?_, ⟨?_, ?_⟩, ?_⟩
  · intro x y v
    constructor <;> rfl
  · intro x y c v jx jy jvx jlife shift
    simp [createSplash]
  · intro x y c v jx jy jvx jlife shift
    simp only [createSplash, List.map_map]
    rfl
  · intro x y c v jx jy jvx jlife shift d hd
    rw [createSplash, List.mem_map] at hd
    obtain ⟨i, _hi, he⟩ := hd
    refine ⟨?_, ?_, ?_⟩
    · rw [← he]
    · rw [← he]
    · intro hjl
      have hlife : d.lifetime = 2/5 + jlife i := by rw [← he]
      obtain ⟨hj0, hj1⟩ := hjl i
      rw [hlife]
      constructor <;> linarith
  · norm_num [createRipple, mkRippleWave]
  · intro x y c jx jy jvx jlife shift
    rw [createSplash]
    simp only [List.length_map, List.length_range]
    exact splashCount_at_120
  · intro keyboardY ps q hq
    rw [checkKeyboardImpacts_fst, List.mem_filter, decide_eq_true_iff] at hq
    exact hq.2

/-- The default-headed first element of a nonempty list is a member. -/
theorem headD_mem_of_ne_nil {α : Type} (l : List α) (h : l ≠ []) (d : α) :
    l.headD d ∈ l := by
  cases l with
  | nil => exact absurd rfl h
  | cons a t => exact List.mem_cons_self a t

/-- The splash list of a velocity-120 impact is nonempty (it has 26
droplets). -/
theorem createSplash_120_ne_nil :
    createSplash 0 0 ((0:ℤ), (0:ℤ), (0:ℤ)) 120 (fun _ => 0) (fun _ => 0)
      (fun _ => 0) (fun _ => 0) (fun _ => 0) ≠ [] := by
  have hlen : (createSplash 0 0 ((0:ℤ), (0:ℤ), (0:ℤ)) 120 (fun _ => 0)
      (fun _ => 0) (fun _ => 0) (fun _ => 0) (fun _ => 0)).length = 26 := by
    rw [createSplash]
    simp only [List.length_map, List.length_range]
    exact splashCount_at_120
  intro hnil
  rw [hnil] at hlen
  simp at hlen

/-- C6 witness: speed, upward-biased vertical velocity and lifetime bounds
of a concrete splash droplet from a velocity-120 impact. -/
theorem C6_impact_effects_witness :
    sampleSplashDroplet.speed = 80 + 120 * (1/2) ∧
    sampleSplashDroplet.vy =
      Real.sin ((sampleSplashDroplet.angleTurn : ℝ) * (2 * Real.pi)) *
        (sampleSplashDroplet.speed : ℝ) - 100 ∧
    (2/5 ≤ sampleSplashDroplet.lifetime ∧
      sampleSplashDroplet.lifetime ≤ 3/5) := by
  have h := C6_impact_effects.2.2.2.1 0 0 ((0:ℤ), (0:ℤ), (0:ℤ)) 120
    (fun _ => 0) (fun _ => 0) (fun _ => 0) (fun _ => 0) (fun _ => 0)
    sampleSplashDroplet (headD_mem_of_ne_nil _ createSplash_120_ne_nil _)
  exact ⟨h.1, h.2.1, h.2.2 (fun i => by norm_num)⟩

/-! ## Theorems: density floor (C4) and the discarded pressure force (C2) -/

/-- Integration (motion, boundary handling, aging) never modifies a
particle's density. -/
theorem integrate_density_eq (width height dt noise : ℚ) (p : FluidParticle) :
    (integrateParticle width height dt noise p).density = p.density := by
  unfold integrateParticle
  have h1 := (integrateMotion_preserves dt noise p).2.2.2
  have h2 := (applyBoundary_preserves width height (integrateMotion dt noise p)).2.2.2
  have h3 : ∀ (q : FluidParticle) (dt2 : ℚ), (ageFade dt2 q).density = q.density := by
    intro q dt2
    simp [ageFade]
  rw [h3, h2, h1]

/-- C4: the density computed by `_calculate_density` is floored at
`REST_DENSITY × 0.5` for every neighbor configuration; the rest of the tick
(integration, boundary handling, aging, pruning) never modifies a
particle's density — every survivor of the particle loop carries the
density of some input particle.  So the floor holds for every live particle
after a complete tick. -/
theorem C4_density_floor :
    (∀ (p : SPHParticleR) (neighbors : List SPHParticleR),
      REST_DENSITY_R * (1/2) ≤ calculateDensity p neighbors) ∧
    (∀ (width height dt noise : ℚ) (p : FluidParticle),
      (integrateParticle width height dt noise p).density = p.density) ∧
    (∀ (width height dt : ℚ) (noise : ℕ → ℚ) (i : ℕ)
      (ps : List FluidParticle) (q : FluidParticle),
      q ∈ tickParticles width height dt noise i ps →
      ∃ p ∈ ps, q.density = p.density) := by
  refine ⟨?_, ?_, ?_⟩
  · intro p neighbors
    exact le_max_left _ _
  · intro width height dt noise p
    exact integrate_density_eq width height dt noise p
  · intro width height dt noise i ps q hq
    obtain ⟨j, p, hp, he, _⟩ :=
      mem_tickParticles width height dt noise i ps q hq
    refine ⟨p, hp, ?_⟩
    rw [he]
    exact integrate_density_eq width height dt (noise j) p

/-- C2: the integration loop discards the accumulated pressure-gradient
force.  (i) The result of `_update_physics`' integration step is completely
independent of the `(ax, ay)` the earlier force pass accumulated — the loop
overwrites `ax = 0, ay = GRAVITY` before integrating; (ii) yet
`_calculate_pressure_force` does accumulate a non-vanishing acceleration in
a generic configuration (two equal particles 10 apart), so a real force is
being thrown away. -/
theorem C2_pressure_force_discarded :
    (∀ (width height dt noise : ℚ) (p : FluidParticle) (a b a2 b2 : ℚ),
      integrateParticle width height dt noise { p with ax := a, ay := b } =
        integrateParticle width height dt noise { p with ax := a2, ay := b2 }) ∧
    (calculatePressureForce pressureProbe [pressureNeighbor]).ax ≠
      pressureProbe.ax := by
  constructor
  · intro width height dt noise p a b a2 b2
    simp [integrateParticle, integrateMotion]
  · have hπ : Real.pi ≠ 0 := Real.pi_ne_zero
    have hπ0 : 0 < Real.pi := Real.pi_pos
    unfold calculatePressureForce pressureProbe pressureNeighbor
    simp only [List.foldl_cons, List.foldl_nil]
    norm_num
    have hsqrt : Real.sqrt 100 = 10 := by
      rw [show (100:ℝ) = 10 ^ 2 by norm_num]
      exact Real.sqrt_sq (by norm_num)
    rw [hsqrt]
    simp only [KERNEL_RADIUS_R, SPIKY_CONST]
    rw [if_pos (by norm_num : (10:ℝ) < 15)]
    field_simp

/-! ## Theorems: per-pitch spawn gating (C10) -/

/-- A recorded pitch stays recorded through the spawning loop and is never
spawned by it. -/
theorem processActiveNotes_preserves (t : ℚ) (ns : List ℤ)
    (rec : List (ℤ × ℚ)) (p : ℤ) (h : hasPitch rec p = true) :
    hasPitch (processActiveNotes t rec ns).1 p = true ∧
    p ∉ (processActiveNotes t rec ns).2 := by
  induction ns generalizing rec with
  | nil => exact ⟨h, by simp [processActiveNotes]⟩
  | cons pitch rest ih =>
    rw [processActiveNotes]
    by_cases hm : hasPitch rec pitch
    · rw [if_pos hm]
      exact ih rec h
    · rw [if_neg hm]
      have hcons : hasPitch ((pitch, t) :: rec) p = true := by
        simp [hasPitch] at h ⊢
        exact Or.inr h
      obtain ⟨h1, h2⟩ := ih ((pitch, t) :: rec) hcons
      refine ⟨h1, ?_⟩
      intro hmem
      rcases List.mem_cons.mp hmem with he | hmem2
      · rw [he] at h
        exact hm h
      · exact h2 hmem2

/-- A pitch spawned by the loop ends the loop recorded. -/
theorem processActiveNotes_spawn_records (t : ℚ) (ns : List ℤ)
    (rec : List (ℤ × ℚ)) (p : ℤ)
    (h : p ∈ (processActiveNotes t rec ns).2) :
    hasPitch (processActiveNotes t rec ns).1 p = true := by
  induction ns generalizing rec with
  | nil => simp [processActiveNotes] at h
  | cons pitch rest ih =>
    rw [processActiveNotes] at h ⊢
    by_cases hm : hasPitch rec pitch
    · rw [if_pos hm] at h ⊢
      exact ih rec h
    · rw [if_neg hm] at h ⊢
      rcases List.mem_cons.mp h with he | hmem
      · have hself : hasPitch ((pitch, t) :: rec) p = true := by
          simp [hasPitch, he]
        exact (processActiveNotes_preserves t rest _ p hself).1
      · exact ih ((pitch, t) :: rec) hmem

/-- C10: droplets are spawned at most once per MIDI pitch between resets.
(i) Once a pitch is in `_last_note_times`, any sequence of `update_time`
calls with a non-decreasing clock (so `reset` never fires) never spawns
that pitch again, and the record persists; (ii) the call that spawns a
pitch records it — so a spawn can only be the first for its pitch. -/
theorem C10_spawn_once_per_pitch (st : GateState)
    (calls : List (ℚ × List ℤ)) (p : ℤ)
    (hrec : hasPitch st.lastNoteTimes p = true)
    (hnb : noBackwardJump st calls = true) :
    (p ∉ (runUpdates st calls).2 ∧
      hasPitch (runUpdates st calls).1.lastNoteTimes p = true) ∧
    (∀ (t : ℚ) (rec : List (ℤ × ℚ)) (ns : List ℤ) (q : ℤ),
      q ∈ (processActiveNotes t rec ns).2 →
      hasPitch (processActiveNotes t rec ns).1 q = true) := by
  refine ⟨?_, fun t rec ns q hq => processActiveNotes_spawn_records t ns rec q hq⟩
  induction calls generalizing st with
  | nil => exact ⟨by simp [runUpdates], hrec⟩
  | cons c rest ih =>
    obtain ⟨t, ns⟩ := c
    rw [noBackwardJump, Bool.and_eq_true, decide_eq_true_iff] at hnb
    obtain ⟨hle, hnb2⟩ := hnb
    have hnoreset : (if t - st.lastFrameTime < 0 then resetGate st else st) = st := by
      rw [if_neg (by linarith)]
    have hstep : updateTimeGate st t ns =
        ({ lastFrameTime := t,
           lastNoteTimes := (processActiveNotes t st.lastNoteTimes ns).1 },
         (processActiveNotes t st.lastNoteTimes ns).2) := by
      rw [updateTimeGate, hnoreset]
    obtain ⟨hkeep, hnospawn⟩ :=
      processActiveNotes_preserves t ns st.lastNoteTimes p hrec
    rw [hstep] at hnb2
    obtain ⟨ih1, ih2⟩ := ih _ hkeep hnb2
    rw [runUpdates, hstep]
    constructor
    · intro hmem
      rcases List.mem_append.mp hmem with hm1 | hm2
      · exact hnospawn hm1
      · exact ih1 hm2
    · exact ih2

/-- C10 witness: pitch 60 is already recorded; one later call with active
pitches `[60, 62]` spawns nothing for 60 and keeps it recorded. -/
theorem C10_spawn_once_per_pitch_witness :
    ((60:ℤ) ∉ (runUpdates ⟨0, [(60, 0)]⟩ [(1, [60, 62])]).2 ∧
      hasPitch (runUpdates ⟨0, [(60, 0)]⟩ [(1, [60, 62])]).1.lastNoteTimes 60 = true) ∧
    (∀ (t : ℚ) (rec : List (ℤ × ℚ)) (ns : List ℤ) (q : ℤ),
      q ∈ (processActiveNotes t rec ns).2 →
      hasPitch (processActiveNotes t rec ns).1 q = true) :=
  C10_spawn_once_per_pitch ⟨0, [(60, 0)]⟩ [(1, [60, 62])] 60
    (by simp [hasPitch])
    (by norm_num [noBackwardJump, updateTimeGate, resetGate,
      processActiveNotes, hasPitch])
